import Mathlib

/-!
Shallow embedding of the credential core of the phraseport service
(`src/server.js` / its Postgres variant): bcrypt-backed passcode
verification with a legacy plaintext fallback, the startup migration of
plaintext passcodes to hashes, keyphrase generation and selection, the
authorization check, and the item-creation handler's failure path.

JavaScript string truthiness (`""` is falsy, any other string truthy) is
modelled explicitly, since the source branches on `if (item.passcodeHash)`
and `if (item.passcode)`.
-/

namespace Phraseport

/-- A stored hash string. bcrypt is external to the repository, so it is
modelled abstractly but faithfully to its contract: a well-formed bcrypt
hash string records the plaintext it was computed from together with the
embedded cost and salt (idealized as collision-free); any other string is
malformed. A well-formed bcrypt hash string is never empty, so only the
malformed case can be JS-falsy. -/
inductive HashString where
  | bcrypt (plain : String) (cost : Nat) (salt : Nat)
  | malformed (raw : String)
deriving Repr, DecidableEq

/-- Emptiness of a string, phrased over its character list. -/
def strEmpty (s : String) : Bool := s.data.isEmpty

/-- JS truthiness of a hash-string value: a well-formed bcrypt hash string
is nonempty hence truthy; a malformed string is truthy iff nonempty. -/
def HashString.truthy : HashString → Bool
  | .bcrypt _ _ _ => true
  | .malformed raw => !strEmpty raw

/-- JS truthiness of an optional string field (`undefined` and `""` are falsy). -/
def strTruthy : Option String → Bool
  | none => false
  | some s => !strEmpty s

/-- JS truthiness of the optional `passcodeHash` field. -/
def hashTruthy : Option HashString → Bool
  | none => false
  | some h => h.truthy

/-- `bcrypt.compare(plain, hash)`: on a well-formed hash it resolves to
whether `plain` is the plaintext the hash was computed from; on a
malformed hash it rejects (the worst case the caller's `try/catch` must
absorb). -/
def bcryptCompare (plain : String) (h : HashString) : Except Unit Bool :=
  match h with
  | .bcrypt p _ _ => Except.ok (plain == p)
  | .malformed _ => Except.error ()

/-- `bcrypt.hash(plain, rounds)` with its internally drawn salt made an
explicit parameter; it fails only on catastrophic internal error, so the
ordinary hasher always succeeds. -/
def bcryptHasher (cost salt : Nat) : String → Except Unit HashString :=
  fun p => Except.ok (HashString.bcrypt p cost salt)

/-- A stored item (`src/server.js` object shape). The JS `type` field is
named `itemType`; `passcode` is the legacy plaintext field. Values that
can be absent in JS are `Option`s. -/
structure Item where
  id : String
  title : String
  itemType : String
  filename : Option String := none
  mimeType : Option String := none
  text : Option String := none
  keyphrase : String
  passcodeHash : Option HashString := none
  passcode : Option String := none
  createdAt : String
deriving Repr, DecidableEq

/-- The JSON-file store: `db.json`'s `items` array. -/
structure DB where
  items : List Item
deriving Repr, DecidableEq

/-- The legacy branch of `verifyPasscode` (`src/server.js` line 99):
`if (item.passcode) return String(passcodePlain) === String(item.passcode)`. -/
def legacyCheck (it : Item) (passcodePlain : String) : Bool :=
  match it.passcode with
  | some p => if strEmpty p then false else passcodePlain == p
  | none => false

/-- `verifyPasscode(item, passcodePlain)` (`src/server.js` lines 89-101):
null item rejects; a truthy `passcodeHash` is checked with
`bcrypt.compare` under `try/catch` (errors become `false`); otherwise the
legacy plaintext comparison applies; with neither field the result is
`false`. -/
def verifyPasscode (item : Option Item) (passcodePlain : String) : Bool :=
  match item with
  | none => false
  | some it =>
    match it.passcodeHash with
    | some h =>
      if h.truthy then
        match bcryptCompare passcodePlain h with
        | Except.ok b => b
        | Except.error _ => false
      else legacyCheck it passcodePlain
    | none => legacyCheck it passcodePlain

/-- One step of `migratePlainPasscodes` (`src/server.js` lines 73-84): an
item with a truthy legacy `passcode` and a falsy `passcodeHash` is
rewritten with the computed hash and its plaintext field deleted; a
hashing failure is caught and leaves the item unchanged. -/
def migrateItem (hasher : String → Except Unit HashString) (it : Item) : Item :=
  if strTruthy it.passcode && !hashTruthy it.passcodeHash then
    match it.passcode with
    | some p =>
      match hasher p with
      | Except.ok h => { it with passcodeHash := some h, passcode := none }
      | Except.error _ => it
    | none => it
  else it

/-- `migratePlainPasscodes` (`src/server.js` lines 70-86): every stored
item is processed in turn; `readDB`/`writeDB` are the state before and
after (writing only when changed leaves the state equal either way). -/
def migratePlainPasscodes (hasher : String → Except Unit HashString) (db : DB) : DB :=
  { db with items := db.items.map (migrateItem hasher) }

/-- `getAuthorizedItems(keyphrase, passcode)` (`src/server.js` lines
171-179): filter the stored items by strict keyphrase equality, then keep
those passing `verifyPasscode`. -/
def getAuthorizedItems (db : DB) (keyphrase passcode : String) : List Item :=
  let candidates := db.items.filter (fun it => it.keyphrase == keyphrase)
  candidates.filter (fun it => verifyPasscode (some it) passcode)

/-- A valid plaintext passcode: exactly four decimal digits (`^\d{4}$`). -/
def isValidPasscode (p : String) : Bool :=
  p.data.length == 4 && p.data.all Char.isDigit

/-- The fixed word list of `generateKeyphrase` (`src/server.js` line 64). -/
def keyphraseWords : List String :=
  ["apple", "river", "sun", "moon", "blue", "green", "cloud", "stone",
   "forest", "star", "sky", "leaf", "fox", "lake", "wind"]

/-- `generateKeyphrase()` (`src/server.js` lines 63-67) with the three
`Math.floor(Math.random() * words.length)` draws made explicit indices:
three independently picked words joined by hyphens. -/
def generateKeyphrase (i j k : Fin keyphraseWords.length) : String :=
  keyphraseWords.get i ++ "-" ++ keyphraseWords.get j ++ "-" ++ keyphraseWords.get k

/-- `String.prototype.trim()`: strip leading and trailing whitespace,
modelled over the character list (the JS whitespace set is abstracted by
`Char.isWhitespace`, which covers the characters the keyphrase flow can
meet). -/
def jsTrim (s : String) : String :=
  String.mk (((s.data.dropWhile Char.isWhitespace).reverse.dropWhile
    Char.isWhitespace).reverse)

/-- The keyphrase selection of the `/api/host` handler (`src/server.js`
lines 138-139): `providedKey = req.body.keyphrase && req.body.keyphrase.trim()`
then `keyphrase = providedKey || generateKeyphrase()`. A falsy (absent or
empty) body keyphrase, or one that trims to empty, falls back to the
generated one; otherwise the trimmed supplied keyphrase is used. -/
def chooseKeyphrase (bodyKeyphrase : Option String) (generated : String) : String :=
  let provided : Option String :=
    match bodyKeyphrase with
    | none => none
    | some k => if strEmpty k then none else some (jsTrim k)
  match provided with
  | some t => if strEmpty t then generated else t
  | none => generated

/-- JS `a || d` on an optional string field, yielding the default when the
field is absent or empty. -/
def jsOrStr (o : Option String) (d : String) : String :=
  match o with
  | some s => if strEmpty s then d else s
  | none => d

/-- JS `a || undefined` on an optional string field (`req.body.text || undefined`). -/
def jsOrUndef (o : Option String) : Option String :=
  match o with
  | some s => if strEmpty s then none else some s
  | none => none

/-- `String.prototype.padStart(4, '0')` restricted to its use on
`crypto.randomInt(0, 10000).toString()`. -/
def padStart4Zero (s : String) : String :=
  if 4 ≤ s.length then s else String.mk (List.replicate (4 - s.length) '0') ++ s

/-- The zero-padded 4-digit passcode of `/api/host` (`src/server.js` line
141): `crypto.randomInt(0, 10000).toString().padStart(4, '0')`. -/
def formatPasscode (n : Fin 10000) : String :=
  padStart4Zero (Nat.repr n.val)

/-- The JSON response of the `/api/host` handler: either the success body
`{success, id, keyphrase, passcode, shareUrl}` or an error status with its
error message and the optional non-production detail. -/
inductive HostResult where
  | success (id : String) (keyphrase : String) (passcode : String) (shareUrl : String)
  | failure (status : Nat) (error : String) (detail : Option String)
deriving Repr, DecidableEq

/-- The plaintext passcode a response discloses: only the success body
carries it (`src/server.js` line 163 / the Postgres variant line 280). -/
def HostResult.disclosedPasscode : HostResult → Option String
  | .success _ _ p _ => some p
  | .failure _ _ _ => none

/-- The text-item path of the `/api/host` handler (Postgres variant,
`src/unnamed/part_000` lines 221-288; the JSON-file variant lines 134-168
differs only in the failure detail): choose the keyphrase, generate and
hash the passcode, build the item, attempt the insert — whose outcome is
the `insertOutcome` parameter — and answer 500 `failed to write item to
DB` (with the database error as detail outside production) on failure, or
the success body with the one-time plaintext passcode on success. -/
def hostHandler (production : Bool) (id : String) (bodyKeyphrase : Option String)
    (title text : Option String) (generated : String) (randPass : Fin 10000)
    (cost salt : Nat) (baseUrl createdAt : String)
    (insertOutcome : Except String Unit) : HostResult :=
  let keyphrase := chooseKeyphrase bodyKeyphrase generated
  let passcode := formatPasscode randPass
  let passcodeHash := HashString.bcrypt passcode cost salt
  let item : Item :=
    { id := id
      title := jsOrStr title "untitled"
      itemType := "text"
      text := jsOrUndef text
      keyphrase := keyphrase
      passcodeHash := some passcodeHash
      createdAt := createdAt }
  match insertOutcome with
  | Except.error e =>
      HostResult.failure 500 "failed to write item to DB"
        (if production then none else some e)
  | Except.ok _ =>
      HostResult.success item.id item.keyphrase passcode
        (baseUrl ++ "/view?keyphrase=" ++ keyphrase ++ "&passcode=" ++ passcode)

/-- A hasher representing a catastrophic `bcrypt.hash` failure. -/
def failingHasher : String → Except Unit HashString :=
  fun _ => Except.error ()

/-! ### Concrete fixtures for witnesses and counterexamples -/

/-- An item whose stored hash was produced from the passcode `0042`. -/
def hashedItemW1 : Item :=
  { id := "a1", title := "t", itemType := "text", keyphrase := "blue-lake-fox",
    passcodeHash := some (HashString.bcrypt "0042" 10 0), createdAt := "2024-01-01" }

/-- An item stored under the mixed-case keyphrase `Apple-River-Sun`. -/
def appleItemW2 : Item :=
  { id := "a2", title := "t", itemType := "text", keyphrase := "Apple-River-Sun",
    passcodeHash := some (HashString.bcrypt "0042" 10 0), createdAt := "2024-01-01" }

/-- A one-item store holding `appleItemW2`. -/
def appleDBW2 : DB := { items := [appleItemW2] }

/-- An already-hashed item, for the idempotence witness. -/
def hashedItemW3 : Item :=
  { id := "a3", title := "t", itemType := "text", keyphrase := "sky-star-moon",
    passcodeHash := some (HashString.bcrypt "1234" 10 0), createdAt := "2024-01-01" }

/-- A one-item store holding `hashedItemW3`. -/
def dbW3 : DB := { items := [hashedItemW3] }

/-- An item that simultaneously holds a hash and a legacy plaintext
passcode (a state the migration's guard skips). -/
def bothFieldsItemC4 : Item :=
  { id := "a4", title := "t", itemType := "text", keyphrase := "green-wind-leaf",
    passcodeHash := some (HashString.bcrypt "1111" 10 0), passcode := some "2222",
    createdAt := "2024-01-01" }

/-- A one-item store holding `bothFieldsItemC4`. -/
def dbC4 : DB := { items := [bothFieldsItemC4] }

/-- A legacy item holding only a plaintext passcode, for the amended
invariant witness. -/
def legacyItemW4 : Item :=
  { id := "a5", title := "t", itemType := "text", keyphrase := "fox-river-cloud",
    passcode := some "0042", createdAt := "2024-01-01" }

/-- A one-item store holding `legacyItemW4`. -/
def dbW4 : DB := { items := [legacyItemW4] }

/-- The spec's scenario record: only the legacy plaintext passcode `0042`,
no hash. -/
def legacyItemW5 : Item :=
  { id := "a6", title := "t", itemType := "text", keyphrase := "stone-forest-star",
    passcode := some "0042", createdAt := "2024-01-01" }

/-- A one-item store holding `legacyItemW5`. -/
def dbW5 : DB := { items := [legacyItemW5] }

/-- A legacy item whose hashing will fail, for the failure-isolation witness. -/
def legacyItemW7 : Item :=
  { id := "a7", title := "t", itemType := "text", keyphrase := "sun-sun-sun",
    passcode := some "7777", createdAt := "2024-01-01" }

/-- A one-item store holding `legacyItemW7`. -/
def dbW7 : DB := { items := [legacyItemW7] }

/-- An item whose stored hash string is the empty (hence JS-falsy) string
while a legacy plaintext passcode is still present. -/
def emptyHashItemC8 : Item :=
  { id := "a8", title := "t", itemType := "text", keyphrase := "moon-blue-sky",
    passcodeHash := some (HashString.malformed ""), passcode := some "0042",
    createdAt := "2024-01-01" }

/-- An item whose stored hash string is malformed but nonempty. -/
def malformedItemW8 : Item :=
  { id := "a9", title := "t", itemType := "text", keyphrase := "leaf-fox-lake",
    passcodeHash := some (HashString.malformed "not-a-bcrypt-hash"),
    createdAt := "2024-01-01" }

/-- An item holding neither a hash nor a legacy plaintext passcode. -/
def bareItemW10 : Item :=
  { id := "a10", title := "t", itemType := "text", keyphrase := "wind-stone-green",
    createdAt := "2024-01-01" }

/-- C1: for every valid plaintext passcode `p` and cost factor, verifying
`p` against a stored hash produced from `p` returns `true`:
`verify(p, hash(p, cost)) == true`. -/
theorem verify_hash_roundtrip (it : Item) (p : String) (cost salt : Nat)
    (h : HashString) (_hv : isValidPasscode p = true)
    (hhash : bcryptHasher cost salt p = Except.ok h)
    (hit : it.passcodeHash = some h) :
    verifyPasscode (some it) p = true := by
  have hh : h = HashString.bcrypt p cost salt := by
    simpa [bcryptHasher] using hhash.symm
  subst hh
  simp [verifyPasscode, hit, HashString.truthy, bcryptCompare]

/-- Witness for C1 at the passcode `0042`, cost 10. -/
theorem verify_hash_roundtrip_witness :
    verifyPasscode (some hashedItemW1) "0042" = true :=
  verify_hash_roundtrip hashedItemW1 "0042" 10 0 (HashString.bcrypt "0042" 10 0)
    (by decide) rfl rfl

/-- C10: `verifyPasscode` is total over its public interface: a null item
rejects, and an item holding neither a `passcodeHash` nor a legacy
plaintext `passcode` rejects every supplied plaintext, without error. -/
theorem verify_total_false (p : String) (it : Item)
    (h1 : it.passcodeHash = none) (h2 : it.passcode = none) :
    verifyPasscode none p = false ∧ verifyPasscode (some it) p = false := by
  refine ⟨rfl, ?_⟩
  simp [verifyPasscode, legacyCheck, h1, h2]

/-- Witness for C10 on a credential-free item. -/
theorem verify_total_false_witness :
    verifyPasscode none "0042" = false ∧
    verifyPasscode (some bareItemW10) "0042" = false :=
  verify_total_false "0042" bareItemW10 rfl rfl

/-- Counterexample to C8 as stated: for the empty (hence JS-falsy)
malformed hash string, the hash branch is skipped entirely and the legacy
plaintext fallback can answer `true`, so verification does not return
`false` for every malformed stored hash string. -/
theorem verify_empty_malformed_counterexample :
    emptyHashItemC8.passcodeHash = some (HashString.malformed "") ∧
    verifyPasscode (some emptyHashItemC8) "0042" = true := by
  exact ⟨rfl, by decide⟩

/-- C8 amended: for every plaintext input and every nonempty (JS-truthy)
malformed stored hash string, `verifyPasscode` returns `false` rather than
raising an error — the `bcrypt.compare` failure is caught. -/
theorem verify_malformed_false (it : Item) (p raw : String)
    (hh : it.passcodeHash = some (HashString.malformed raw))
    (hr : strEmpty raw = false) :
    verifyPasscode (some it) p = false := by
  simp [verifyPasscode, hh, HashString.truthy, hr, bcryptCompare]

/-- Witness for amended C8 on a nonempty malformed hash. -/
theorem verify_malformed_false_witness :
    verifyPasscode (some malformedItemW8) "0042" = false :=
  verify_malformed_false malformedItemW8 "0042" "not-a-bcrypt-hash" rfl (by decide)

/-- C2: the authorization check returns exactly the stored items whose
keyphrase equals the input exactly (case-sensitive, no normalization) and
whose credential passes `verifyPasscode`. -/
theorem mem_getAuthorizedItems_iff (db : DB) (k p : String) (x : Item) :
    x ∈ getAuthorizedItems db k p ↔
      x ∈ db.items ∧ x.keyphrase = k ∧ verifyPasscode (some x) p = true := by
  constructor
  · intro hx
    rcases List.mem_filter.mp hx with ⟨hx2, hv⟩
    rcases List.mem_filter.mp hx2 with ⟨hmem, hk⟩
    exact ⟨hmem, by simpa using hk, hv⟩
  · rintro ⟨hmem, hk, hv⟩
    exact List.mem_filter.mpr ⟨List.mem_filter.mpr ⟨hmem, by simpa using hk⟩, hv⟩

/-- Witness for C2: a store holding `Apple-River-Sun` never answers the
lower-case query `apple-river-sun`, even with the right passcode. -/
theorem mem_getAuthorizedItems_iff_witness :
    ¬ appleItemW2 ∈ getAuthorizedItems appleDBW2 "apple-river-sun" "0042" :=
  fun hmem => by
    have h2 := (mem_getAuthorizedItems_iff appleDBW2 "apple-river-sun" "0042"
      appleItemW2).mp hmem
    exact absurd h2.2.1 (by decide)

/-- An item with no plaintext `passcode` field is left unchanged by the
per-item migration (its guard requires a truthy plaintext field). -/
theorem migrateItem_no_plain (hasher : String → Except Unit HashString)
    (it : Item) (hp : it.passcode = none) : migrateItem hasher it = it := by
  simp [migrateItem, strTruthy, hp]

/-- Re-migrating a single item changes nothing: an item the first pass
rewrote has lost its plaintext field, and one it left alone is left alone
again. -/
theorem migrateItem_idem (hasher : String → Except Unit HashString) (it : Item) :
    migrateItem hasher (migrateItem hasher it) = migrateItem hasher it := by
  by_cases hc : (strTruthy it.passcode && !hashTruthy it.passcodeHash) = true
  · cases hp : it.passcode with
    | none => simp [strTruthy, hp] at hc
    | some p =>
      cases hh : hasher p with
      | error e =>
        have h1 : migrateItem hasher it = it := by
          simp [migrateItem, hc, hp, hh]
        rw [h1]
        exact h1
      | ok h =>
        rw [hp] at hc
        have h1 : migrateItem hasher it =
            { it with passcodeHash := some h, passcode := none } := by
          simp [migrateItem, hc, hp, hh]
        rw [h1]
        exact migrateItem_no_plain hasher _ rfl
  · have h1 : migrateItem hasher it = it := by
      simp [migrateItem, hc]
    rw [h1]
    exact h1

/-- Mapping the per-item migration twice over a list equals mapping it once. -/
theorem map_migrateItem_idem (hasher : String → Except Unit HashString)
    (l : List Item) :
    (l.map (migrateItem hasher)).map (migrateItem hasher) =
      l.map (migrateItem hasher) := by
  induction l with
  | nil => rfl
  | cons a t ih => simp [migrateItem_idem hasher a, ih]

/-- C3: Legacy Migration is idempotent — a second run after a completed
first run produces the identical store, and items already holding a
(truthy) hash are untouched by any run. -/
theorem migrate_idempotent (hasher : String → Except Unit HashString) (db : DB) :
    migratePlainPasscodes hasher (migratePlainPasscodes hasher db) =
      migratePlainPasscodes hasher db ∧
    ∀ it ∈ db.items, hashTruthy it.passcodeHash = true →
      migrateItem hasher it = it := by
  constructor
  · exact congrArg DB.mk (map_migrateItem_idem hasher db.items)
  · intro it _ ht
    simp [migrateItem, ht]

/-- Witness for C3: an already-hashed item is untouched by the migration
of its store. -/
theorem migrate_idempotent_witness :
    migrateItem (bcryptHasher 10 0) hashedItemW3 = hashedItemW3 :=
  (migrate_idempotent (bcryptHasher 10 0) dbW3).2 hashedItemW3 (by decide) (by decide)

/-- Counterexample to C4 as stated: a store containing an item that
already holds both a hash and a legacy plaintext passcode still contains
it unchanged after migration — the migration's guard
(`it.passcode && !it.passcodeHash`) skips items whose hash is set, so it
never deletes their plaintext field. -/
theorem migrate_both_fields_counterexample :
    ¬ ∀ it ∈ (migratePlainPasscodes (bcryptHasher 10 0) dbC4).items,
        it.passcodeHash.isSome = true → it.passcode = none := by
  decide

/-- Per-item form of the amended C4: migration preserves the invariant
`passcodeHash set → passcode absent`. -/
theorem migrateItem_hash_no_plain (hasher : String → Except Unit HashString)
    (a : Item) (hpa : a.passcodeHash.isSome = true → a.passcode = none) :
    (migrateItem hasher a).passcodeHash.isSome = true →
      (migrateItem hasher a).passcode = none := by
  by_cases hc : (strTruthy a.passcode && !hashTruthy a.passcodeHash) = true
  · cases hp : a.passcode with
    | none => simp [strTruthy, hp] at hc
    | some p =>
      have hnone : a.passcodeHash = none := by
        cases hhh : a.passcodeHash with
        | none => rfl
        | some h =>
          have h2 := hpa (by simp [hhh])
          rw [hp] at h2
          exact absurd h2 (by simp)
      cases hh : hasher p with
      | ok h =>
        intro _
        rw [hp] at hc
        have h1 : migrateItem hasher a =
            { a with passcodeHash := some h, passcode := none } := by
          simp [migrateItem, hc, hp, hh]
        rw [h1]
      | error e =>
        intro hsome
        rw [migrateItem, if_pos hc, hp] at hsome
        simp only [hh] at hsome
        rw [hnone] at hsome
        simp at hsome
  · intro hsome
    rw [migrateItem, if_neg hc] at hsome ⊢
    exact hpa hsome

/-- C4 amended: if no stored item holds both a set `passcodeHash` and a
plaintext `passcode` before migration, the same holds of every item after
migration; every record the migration itself rewrites ends with the hash
set and the plaintext field deleted (see `migrateItem`), but a record
already violating the invariant is left untouched
(`migrate_both_fields_counterexample`). -/
theorem migrate_preserves_hash_no_plain (hasher : String → Except Unit HashString)
    (db : DB)
    (hpre : ∀ it ∈ db.items, it.passcodeHash.isSome = true → it.passcode = none) :
    ∀ it ∈ (migratePlainPasscodes hasher db).items,
      it.passcodeHash.isSome = true → it.passcode = none := by
  intro it hmem
  rw [migratePlainPasscodes] at hmem
  rcases List.mem_map.mp hmem with ⟨a, ha, rfl⟩
  exact migrateItem_hash_no_plain hasher a (hpre a ha)

/-- Witness for amended C4: the migrated form of a legacy-only item has
its plaintext field absent. -/
theorem migrate_preserves_hash_no_plain_witness :
    (migrateItem (bcryptHasher 10 0) legacyItemW4).passcode = none :=
  migrate_preserves_hash_no_plain (bcryptHasher 10 0) dbW4 (by decide)
    (migrateItem (bcryptHasher 10 0) legacyItemW4) (by decide) (by decide)

/-- C5: a stored record holding only a legacy plaintext passcode and no
hash is authorized with its keyphrase and that exact passcode before
migration (the plaintext-comparison fallback); after Legacy Migration the
record carries the hash with the plaintext field absent, and the same
keyphrase/passcode call still authorizes it (now via the hash path). -/
theorem legacy_auth_before_after_migration (db : DB) (it : Item) (p : String)
    (cost salt : Nat) (hmem : it ∈ db.items) (hp : it.passcode = some p)
    (hpe : strEmpty p = false) (hh : it.passcodeHash = none) :
    it ∈ getAuthorizedItems db it.keyphrase p ∧
    migrateItem (bcryptHasher cost salt) it =
      { it with passcodeHash := some (HashString.bcrypt p cost salt),
                passcode := none } ∧
    migrateItem (bcryptHasher cost salt) it ∈
      getAuthorizedItems (migratePlainPasscodes (bcryptHasher cost salt) db)
        it.keyphrase p := by
  have hver : verifyPasscode (some it) p = true := by
    simp [verifyPasscode, legacyCheck, hh, hp, hpe]
  have hmig : migrateItem (bcryptHasher cost salt) it =
      { it with passcodeHash := some (HashString.bcrypt p cost salt),
                passcode := none } := by
    simp [migrateItem, strTruthy, hashTruthy, hp, hpe, hh, bcryptHasher]
  refine ⟨?_, hmig, ?_⟩
  · exact List.mem_filter.mpr ⟨List.mem_filter.mpr ⟨hmem, by simp⟩, hver⟩
  · have hmem2 : migrateItem (bcryptHasher cost salt) it ∈
        (migratePlainPasscodes (bcryptHasher cost salt) db).items :=
      List.mem_map_of_mem (migrateItem (bcryptHasher cost salt)) hmem
    have hver2 : verifyPasscode (some (migrateItem (bcryptHasher cost salt) it))
        p = true := by
      rw [hmig]
      simp [verifyPasscode, HashString.truthy, bcryptCompare]
    have hkey : (migrateItem (bcryptHasher cost salt) it).keyphrase =
        it.keyphrase := by
      rw [hmig]
    exact List.mem_filter.mpr ⟨List.mem_filter.mpr ⟨hmem2, by simp [hkey]⟩, hver2⟩

/-- Witness for C5 at the spec's scenario passcode `0042`. -/
theorem legacy_auth_before_after_migration_witness :
    legacyItemW5 ∈ getAuthorizedItems dbW5 legacyItemW5.keyphrase "0042" ∧
    migrateItem (bcryptHasher 10 0) legacyItemW5 =
      { legacyItemW5 with passcodeHash := some (HashString.bcrypt "0042" 10 0),
                          passcode := none } ∧
    migrateItem (bcryptHasher 10 0) legacyItemW5 ∈
      getAuthorizedItems (migratePlainPasscodes (bcryptHasher 10 0) dbW5)
        legacyItemW5.keyphrase "0042" :=
  legacy_auth_before_after_migration dbW5 legacyItemW5 "0042" 10 0 (by decide)
    rfl (by decide) rfl

/-- C6: when the store insert fails, the item-creation handler reports
failure (HTTP 500 with the fixed error message and, outside production,
the database error detail), discloses no passcode, and its response does
not depend on the generated passcode at all. -/
theorem host_insert_failure_no_disclosure (production : Bool) (id : String)
    (bodyKeyphrase title text : Option String) (generated : String)
    (rp rq : Fin 10000) (cost salt : Nat) (baseUrl createdAt e : String) :
    (hostHandler production id bodyKeyphrase title text generated rp cost salt
        baseUrl createdAt (Except.error e)).disclosedPasscode = none ∧
    hostHandler production id bodyKeyphrase title text generated rp cost salt
        baseUrl createdAt (Except.error e) =
      HostResult.failure 500 "failed to write item to DB"
        (if production then none else some e) ∧
    hostHandler production id bodyKeyphrase title text generated rp cost salt
        baseUrl createdAt (Except.error e) =
      hostHandler production id bodyKeyphrase title text generated rq cost salt
        baseUrl createdAt (Except.error e) :=
  ⟨rfl, rfl, rfl⟩

/-- Witness for C6 at a concrete failed insert. -/
theorem host_insert_failure_no_disclosure_witness :
    (hostHandler false "id1" none none none "apple-sun-moon" (7 : Fin 10000)
        10 0 "http://localhost:3000" "2024-01-01"
        (Except.error "connection refused")).disclosedPasscode = none :=
  (host_insert_failure_no_disclosure false "id1" none none none
    "apple-sun-moon" (7 : Fin 10000) (8 : Fin 10000) 10 0
    "http://localhost:3000" "2024-01-01" "connection refused").1

/-- When the hasher fails on an item's plaintext passcode, the per-item
migration leaves the item exactly as it was (the `catch` branch). -/
theorem migrateItem_hash_fail (hasher : String → Except Unit HashString)
    (it : Item) (p : String) (hp : it.passcode = some p)
    (hf : hasher p = Except.error ()) :
    migrateItem hasher it = it := by
  by_cases hc : (strTruthy it.passcode && !hashTruthy it.passcodeHash) = true
  · simp [migrateItem, hc, hp, hf]
  · simp [migrateItem, hc]

/-- C7: a hashing failure for one item leaves that item exactly as it was
(plaintext intact), the migration still processes the whole store (length
preserved), and every position of the migrated store is the per-item
migration of the corresponding original item — one failing record never
aborts the others. -/
theorem migrate_failure_isolated (hasher : String → Except Unit HashString)
    (db : DB) (i : Nat) (hi : i < db.items.length)
    (hneed : strTruthy (db.items.get ⟨i, hi⟩).passcode = true ∧
      hashTruthy (db.items.get ⟨i, hi⟩).passcodeHash = false)
    (hfail : ∀ p, (db.items.get ⟨i, hi⟩).passcode = some p →
      hasher p = Except.error ()) :
    migrateItem hasher (db.items.get ⟨i, hi⟩) = db.items.get ⟨i, hi⟩ ∧
    (migratePlainPasscodes hasher db).items.length = db.items.length ∧
    ∀ (j : Nat) (hj : j < db.items.length)
      (hj2 : j < (migratePlainPasscodes hasher db).items.length),
      (migratePlainPasscodes hasher db).items.get ⟨j, hj2⟩ =
        migrateItem hasher (db.items.get ⟨j, hj⟩) := by
  refine ⟨?_, ?_, ?_⟩
  · cases hp : (db.items.get ⟨i, hi⟩).passcode with
    | none => rw [hp] at hneed; simp [strTruthy] at hneed
    | some p => exact migrateItem_hash_fail hasher _ p hp (hfail p hp)
  · simp [migratePlainPasscodes]
  · intro j hj hj2
    simp [migratePlainPasscodes, List.get_eq_getElem]

/-- Witness for C7: the failing hasher leaves the sole legacy item of its
store untouched. -/
theorem migrate_failure_isolated_witness :
    migrateItem failingHasher (dbW7.items.get ⟨0, by decide⟩) =
      dbW7.items.get ⟨0, by decide⟩ :=
  (migrate_failure_isolated failingHasher dbW7 0 (by decide)
    ⟨by decide, by decide⟩ (fun p _ => rfl)).1

/-- C9: a caller-supplied keyphrase that is non-empty after trimming is
used (trimmed) as the item's keyphrase with no generation — and, the
choice being a pure function of the request body and the generated
string, no uniqueness check against the store; otherwise the generated
keyphrase is three words drawn from the fixed word list (15 ≥ 10 entries)
joined by hyphens. -/
theorem keyphrase_choice_spec :
    (∀ (k gen : String), strEmpty (jsTrim k) = false →
      chooseKeyphrase (some k) gen = jsTrim k) ∧
    (∀ (i j l : Fin keyphraseWords.length),
      ∃ w1, w1 ∈ keyphraseWords ∧ ∃ w2, w2 ∈ keyphraseWords ∧
        ∃ w3, w3 ∈ keyphraseWords ∧
          generateKeyphrase i j l = w1 ++ "-" ++ w2 ++ "-" ++ w3) ∧
    10 ≤ keyphraseWords.length := by
  refine ⟨?_, ?_, by decide⟩
  · intro k gen ht
    by_cases hk : strEmpty k = true
    · have hdata : k.data = [] := by simpa [strEmpty, List.isEmpty_iff] using hk
      have : strEmpty (jsTrim k) = true := by
        simp [jsTrim, strEmpty, hdata]
      rw [this] at ht
      exact absurd ht (by simp)
    · simp [chooseKeyphrase, hk, ht]
  · intro i j l
    exact ⟨keyphraseWords.get i, keyphraseWords.get_mem i.1 i.2,
      keyphraseWords.get j, keyphraseWords.get_mem j.1 j.2,
      keyphraseWords.get l, keyphraseWords.get_mem l.1 l.2, rfl⟩

/-- Witness for C9: a supplied keyphrase with surrounding whitespace is
used trimmed, not replaced by the generated one. -/
theorem keyphrase_choice_spec_witness :
    chooseKeyphrase (some " shared-link-demo ") "apple-sun-moon" =
      jsTrim " shared-link-demo " :=
  keyphrase_choice_spec.1 " shared-link-demo " "apple-sun-moon" (by decide)

end Phraseport
